import Mathlib

/-!
Verification of the stencil_code specialization controller and execution
runtime (src/stencil_code/stencil_kernel.py, stencil_python_frontend.py,
stencil_model.py), by a shallow embedding of the relevant Python code into
Lean definitions.

Conventions of the embedding:
* numpy shapes are `List Nat` (one extent per dimension); dtypes are `String`.
* Python object identity (needed for "fresh buffer" / "same buffer object"
  claims) is modelled by tagging each allocation with a `Nat` id drawn from a
  monotone counter threaded through the state.
* Python `range(a, b)` over nonnegative bounds is `List.range' a (b - a)`
  (truncated `Nat` subtraction gives the empty list exactly when `b <= a`,
  matching Python's empty range).
* `itertools.product` over a list of lists is the `product` function below,
  which enumerates tuples in the same order (leftmost factor varies slowest).
-/

namespace StencilCode

/-! ### interior points (StencilKernel.interior_points, stencil_kernel.py 438-442)

Source:
    def interior_points(self, x):
        dims = (range(self.ghost_depth, dim - self.ghost_depth)
                    for dim in x.shape)
        for item in itertools.product(*dims):
            yield tuple(item)
-/

/-- Order-faithful embedding of `itertools.product` over a list of factor
lists: the leftmost factor varies slowest, exactly as `itertools.product`
iterates. -/
def product : List (List Nat) → List (List Nat)
  | [] => [[]]
  | l :: ls => l.flatMap (fun x => (product ls).map (fun p => x :: p))

/-- Embedding of `StencilKernel.interior_points`: for each dimension extent
`dim` of the array's shape, `range(ghost_depth, dim - ghost_depth)` (written
with truncated subtraction, `dim - ghost_depth - ghost_depth = dim - 2*g`),
then the itertools product of those ranges.  The generator yields lists of
coordinates in product order. -/
def interior_points (ghost_depth : Nat) (shape : List Nat) : List (List Nat) :=
  product (shape.map (fun dim => List.range' ghost_depth (dim - 2 * ghost_depth)))

theorem mem_product {ls : List (List Nat)} {p : List Nat} :
    p ∈ product ls ↔ List.Forall₂ (fun x l => x ∈ l) p ls := by
  induction ls generalizing p with
  | nil =>
    simp only [product, List.mem_singleton]
    constructor
    · rintro rfl; exact List.Forall₂.nil
    · rintro h; cases h; rfl
  | cons l ls ih =>
    simp only [product, List.mem_flatMap, List.mem_map]
    constructor
    · rintro ⟨x, hx, q, hq, rfl⟩
      exact List.Forall₂.cons hx (ih.mp hq)
    · intro h
      cases h with
      | cons hx hq => exact ⟨_, hx, _, ih.mpr hq, rfl⟩

theorem product_of_empty_mem {ls : List (List Nat)} (h : [] ∈ ls) :
    product ls = [] := by
  induction ls with
  | nil => cases h
  | cons l ls ih =>
    rcases List.mem_cons.mp h with rfl | h
    · simp [product]
    · simp [product, ih h]

/-! ### the specialization cache (StencilKernel.shadow_kernel, stencil_kernel.py 404-436,
and SpecializedStencil.args_to_subconfig, stencil_kernel.py 203-215)

Source of the reuse decision (shadow_kernel):
    if not self.specialized_sizes or\
            self.specialized_sizes != [y.shape for y in args]:
        self.specialized = SpecializedStencil(...)
        self.specialized_sizes = [arg.shape for arg in args]

Source of the derived configuration (args_to_subconfig):
    return tuple(
        StencilArgConfig(len(arg), arg.dtype, arg.ndim, arg.shape)
        for arg in args
    )
-/

/-- A runtime numpy array argument as the controller sees it: its dtype and
shape.  `ndim` is `shape.length` and `len(arg)` is the first extent of the
shape, as for a numpy ndarray. -/
structure PyArray where
  dtype : String
  shape : List Nat
  deriving DecidableEq, Repr

/-- Embedding of the `StencilArgConfig` namedtuple
`('size', 'dtype', 'ndim', 'shape')`. -/
structure StencilArgConfig where
  size : Nat
  dtype : String
  ndim : Nat
  shape : List Nat
  deriving DecidableEq, Repr

/-- Embedding of `SpecializedStencil.args_to_subconfig`: one descriptor per
argument, built from `len(arg)` (the first shape extent of an ndarray),
`arg.dtype`, `arg.ndim` and `arg.shape`. -/
def args_to_subconfig (args : List PyArray) : List StencilArgConfig :=
  args.map (fun a => ⟨a.shape.headD 0, a.dtype, a.shape.length, a.shape⟩)

/-- The part of the `StencilKernel` state that the reuse decision reads and
writes: `specialized_sizes`, which is `None` initially (modelled `none`) and
afterwards holds the list of argument shapes recorded at the last rebuild. -/
structure ShadowState where
  specialized_sizes : Option (List (List Nat))
  deriving DecidableEq, Repr

/-- Python truthiness of `self.specialized_sizes` as used in
`not self.specialized_sizes`: falsy when `None` or the empty list. -/
def sizesFalsy : Option (List (List Nat)) → Bool
  | none => true
  | some [] => true
  | some (_ :: _) => false

/-- Embedding of the cache-decision step of `StencilKernel.shadow_kernel`:
returns `(recompiled, new state)`.  A rebuild happens when
`not self.specialized_sizes or self.specialized_sizes != [y.shape for y in args]`,
in which case a new `SpecializedStencil` replaces the old one and
`specialized_sizes` is set to the fresh shape list; otherwise the stored
artifact is reused unchanged. -/
def shadow_step (st : ShadowState) (args : List PyArray) : Bool × ShadowState :=
  let new_sizes := args.map (fun y => y.shape)
  if sizesFalsy st.specialized_sizes || st.specialized_sizes ≠ some new_sizes then
    (true, ⟨some new_sizes⟩)
  else
    (false, st)

/-- The initial state: `self.specialized_sizes = None` (stencil_kernel.py 393). -/
def shadowInit : ShadowState := ⟨none⟩

/-- Modelled from the spec (§3): two configurations are equal iff their
descriptor sequences are element-wise equal on dtype, ndim and shape.  This
definition follows the spec's words; it is the comparison the claim asserts
the controller uses, to be diffed against what `shadow_step` actually
compares. -/
def configEqualBySpec (c1 c2 : List StencilArgConfig) : Bool :=
  c1.length = c2.length &&
    (c1.zip c2).all (fun p =>
      p.1.dtype = p.2.dtype && p.1.ndim = p.2.ndim && p.1.shape = p.2.shape)

/-! ### the native execution wrapper (StencilFunction, stencil_kernel.py 48-85)

Source of `__call__`:
    duration = c_float()
    args += (self.output, byref(duration))
    self._c_function(*args)
    return self.output
-/

/-- An argument as passed to the compiled C entry point: either a buffer
(identified by the id of the host array backing it) or the by-reference
timing destination `byref(duration)` freshly created inside the call. -/
inductive CArg where
  | buf (id : Nat)
  | timingRef
  deriving DecidableEq, Repr

/-- Embedding of `StencilFunction`: the persistent output buffer (held as its
object identity) and the compiled callable, modelled as an arbitrary mutator
of buffer contents (a map from buffer id to stored values) that also sees the
exact argument list it was invoked with. -/
structure StencilFunction where
  output : Nat
  c_function : List CArg → (Nat → List Int) → (Nat → List Int)

/-- Embedding of `StencilFunction.__call__`: extend `args` with exactly the
persistent output buffer and the timing destination, in that order, invoke
the compiled callable on the extended list, and return the persistent output
buffer.  The result triple is (invoked argument list, returned buffer id,
memory after the call). -/
def StencilFunction.call (f : StencilFunction) (args : List Nat)
    (mem : Nat → List Int) : List CArg × Nat × (Nat → List Int) :=
  let full := args.map CArg.buf ++ [CArg.buf f.output, CArg.timingRef]
  (full, f.output, f.c_function full mem)

/-! ### the GPU execution runtime (OclStencilFunction, stencil_kernel.py 88-166)

Source of `__call__` (abridged):
    bufs = []
    for index, arg in enumerate(args[:-1]):
        buf, evt = buffer_from_ndarray(self.queue, arg, blocking=False)
        events.append(evt); bufs.append(buf)
        self.kernel.setarg(index, buf, sizeof(cl_mem))
    cl.clWaitForEvents(*events)
    if self.device.type == ... GPU: local = 8
    else: local = 1
    localmem_size = reduce(operator.mul,
        (local + (self.ghost_depth * 2) for _ in range(args[0].ndim)),
        sizeof(c_float))
    self.kernel.setarg(len(args) - 1, localmem(localmem_size), localmem_size)
    evt = clEnqueueNDRangeKernel(...); evt.wait()
    buf, evt = buffer_to_ndarray(self.queue, bufs[-1], args[-2]); evt.wait()
    for mem in bufs:
        del mem
    return buf

The Python argument list is `inputs ++ [output_grid, byref(duration)]`, so
`args[:-1]` (the entries that get device buffers) is the inputs plus the host
output grid, `bufs[-1]` is the device buffer created for the output slot, and
`args[-2]` is the host output grid the result is downloaded into.  Every
element of `bufs` — the input buffers and the output buffer alike — is a
per-call allocation dropped when the call ends (the `del` loop plus the death
of the local `bufs` at return); none of them survives into the next call. -/

/-- `sizeof(c_float)` in bytes. -/
def sizeof_c_float : Nat := 4

/-- A host numpy array, as seen by the GPU runtime: its object identity and
its rank (`ndim`). -/
structure HostArray where
  id : Nat
  ndim : Nat
  deriving DecidableEq, Repr

/-- The state the `OclStencilFunction` keeps across calls after `finalize`:
the recorded ghost depth and the persistent host output grid.  No device
buffer is part of this cross-call state — the context and queue are, but
carry no per-call data. -/
structure OclFn where
  ghost_depth : Nat
  output_grid : HostArray
  deriving DecidableEq, Repr

/-- The device-allocation state threaded across calls: a fresh-id counter and
the list of live device buffer ids. -/
structure DevState where
  counter : Nat
  live : List Nat
  deriving DecidableEq, Repr

/-- The observable record of one `OclStencilFunction.__call__`. -/
structure OclCallResult where
  /-- ids of the device buffers created by this call (one per entry of
  `args[:-1]`, i.e. one per input plus one for the output slot), in
  creation order; these are the positional kernel arguments 0..n-1. -/
  bufsCreated : List Nat
  /-- the final kernel argument: its index `len(args) - 1` and the bound
  local-memory size in bytes. -/
  localmemArgIndex : Nat
  localmemSize : Nat
  /-- the device buffer the result is downloaded from (`bufs[-1]`). -/
  downloadedFrom : Nat
  /-- the host array the result is downloaded into (`args[-2]`). -/
  downloadTarget : Nat
  /-- the live device buffers after the call returns. -/
  liveAfter : List Nat
  deriving DecidableEq, Repr

/-- Embedding of `OclStencilFunction.__call__` on argument list
`inputs ++ [output_grid, byref(duration)]`: allocate one device buffer per
entry of `args[:-1]` (the inputs and the host output grid), size the
local-memory tile from `args[0].ndim` (the first input's rank, with
`local = 8` on a GPU device and `1` otherwise), bind it as kernel argument
`len(args) - 1`, download `bufs[-1]` into `args[-2]`, and drop every
per-call device buffer before the next call can happen. -/
def OclStencilFunction.call (fn : OclFn) (isGPU : Bool) (inputs : List HostArray)
    (st : DevState) : OclCallResult × DevState :=
  let nbufs := inputs.length + 1
  let bufs := (List.range nbufs).map (fun i => st.counter + i)
  let ndim := (inputs.headD fn.output_grid).ndim
  let llocal := if isGPU then 8 else 1
  let localmem_size :=
    List.foldl (· * ·) sizeof_c_float
      (List.replicate ndim (llocal + fn.ghost_depth * 2))
  ({ bufsCreated := bufs
     localmemArgIndex := nbufs
     localmemSize := localmem_size
     downloadedFrom := st.counter + inputs.length
     downloadTarget := fn.output_grid.id
     liveAfter := st.live },
   { counter := st.counter + nbufs, live := st.live })

/-! ### output allocation (SpecializedStencil.generate_output, stencil_kernel.py 333-337,
called from SpecializedStencil.transform, line 247)

Source:
    def generate_output(self, args):
        if self.output is not None:
            return self.output
        self.output = np.zeros_like(args[0])
        return self.output
-/

/-- A numpy array's type information: shape and dtype. -/
structure NDArr where
  shape : List Nat
  dtype : String
  deriving DecidableEq, Repr

/-- An allocated output array: its object identity, its shape/dtype, and
whether it was created zero-filled. -/
structure OutBuf where
  id : Nat
  arr : NDArr
  zeroFilled : Bool
  deriving DecidableEq, Repr

/-- The part of a `SpecializedStencil` instance's state that
`generate_output` reads and writes: the cached `self.output` (initially
`None`, stencil_kernel.py 200) and a fresh-id counter modelling allocation. -/
structure SpecStencilState where
  alloc_counter : Nat
  output : Option OutBuf
  deriving DecidableEq, Repr

/-- `np.zeros_like(a)`: a fresh (new identity) zero-filled array with the
same shape and dtype as `a`. -/
def np_zeros_like (counter : Nat) (a : NDArr) : OutBuf :=
  ⟨counter, a, true⟩

/-- Embedding of `SpecializedStencil.generate_output`: if `self.output` is
already set it is returned unchanged (no new allocation); otherwise a fresh
zero-filled array shaped like `args[0]` is allocated, cached, and returned.
`transform` (the build of a specialization) obtains its output array by
calling this with the triggering call's arguments. -/
def generate_output (st : SpecStencilState) (args : List NDArr) :
    OutBuf × SpecStencilState :=
  match st.output with
  | some o => (o, st)
  | none =>
    let o := np_zeros_like st.alloc_counter (args.headD ⟨[], ""⟩)
    (o, ⟨st.alloc_counter + 1, some o⟩)

/-! ### the frontend translator (PythonToStencilModel, stencil_python_frontend.py 8-29,
node classes in stencil_model.py 16-33)

Source:
    class PythonToStencilModel(NodeTransformer):
        def visit_For(self, node):
            node.body = list(map(self.visit, node.body))
            if type(node.iter) is ast.Call and \
               type(node.iter.func) is ast.Attribute:
                if node.iter.func.attr is 'interior_points':
                    return InteriorPointsLoop(target=node.target.id,
                                              body=node.body)
                elif node.iter.func.attr is 'neighbors':
                    return NeighborPointsLoop(
                        neighbor_id=node.iter.args[1].n,
                        grid_name=node.iter.func.value.id,
                        neighbor_target=node.target.id,
                        body=node.body)
            return node
        def visit_FunctionCall(self, node):
            node.args = list(map(self.visit, node.args))
            if str(node.func) == 'distance' or str(node.func) == 'int':
                return MathFunction(func=node.func, args=node.args)
            return node

Notes on the embedding:
* The `is` comparisons on attribute names behave as string equality for the
  interned identifier strings involved, so they are embedded as `=`.
* `NodeTransformer.generic_visit` (the inherited behavior for every node kind
  without a dedicated visitor) replaces each child with its visited form and
  returns the same node; `visit_For` does NOT call it — it visits only
  `node.body`, leaving `node.target` and `node.iter` untouched.
* The model node classes (`InteriorPointsLoop` etc.) inherit
  `_fields = ['base_node']` and never set that attribute, so `generic_visit`
  finds no children on them and returns them unchanged.
* Python node kinds other than the ones the translator inspects are folded
  into the `Stmt` constructor (a node kind tag plus its child list), on which
  `generic_visit` recursively visits every child. -/

/-- The tree grammar the translator operates on: the Python/ctree node shapes
the source inspects (`Name`, `Num`, `Attribute`, `Call`, `For`,
`FunctionCall`), the three stencil-model node classes it produces, and a
generic `Stmt` for every other node kind. -/
inductive PyAst where
  | Name (id : String)
  | Num (n : Int)
  | Attribute (value : PyAst) (attr : String)
  | Call (func : PyAst) (args : List PyAst)
  | For (target : PyAst) (iter : PyAst) (body : List PyAst)
  | FunctionCall (func : String) (args : List PyAst)
  | InteriorPointsLoop (target : String) (body : List PyAst)
  | NeighborPointsLoop (neighbor_id : Int) (grid_name : String)
      (neighbor_target : String) (body : List PyAst)
  | MathFunction (func : String) (args : List PyAst)
  | Stmt (kind : String) (children : List PyAst)
  deriving Repr

/-- The `.id` attribute of a node.  In the source this access raises
`AttributeError` on a node that is not a `Name`; the claims only quantify
over trees where the access is defined, so a junk default stands in for the
error case. -/
def PyAst.nameId : PyAst → String
  | .Name s => s
  | _ => ""

/-- The `.n` attribute of a node (a `Num` literal's value), with a junk
default standing in for the source's `AttributeError` as in `nameId`. -/
def PyAst.numN : PyAst → Int
  | .Num n => n
  | _ => 0

mutual

/-- Embedding of `PythonToStencilModel.visit`: dispatches to `visit_For` for
`For` nodes and `visit_FunctionCall` for `FunctionCall` nodes, and otherwise
performs `generic_visit` (children replaced by their visited forms, node
returned). -/
def visit : PyAst → PyAst
  | .For target iter body =>
    let body' := visitList body
    match iter with
    | .Call (.Attribute value attr) cargs =>
      if attr = "interior_points" then
        .InteriorPointsLoop target.nameId body'
      else if attr = "neighbors" then
        .NeighborPointsLoop ((cargs.getD 1 (.Num 0)).numN) value.nameId
          target.nameId body'
      else
        .For target iter body'
    | _ => .For target iter body'
  | .FunctionCall f args =>
    let args' := visitList args
    if f = "distance" ∨ f = "int" then .MathFunction f args'
    else .FunctionCall f args'
  | .Name s => .Name s
  | .Num n => .Num n
  | .Attribute v a => .Attribute (visit v) a
  | .Call f args => .Call (visit f) (visitList args)
  | .InteriorPointsLoop t b => .InteriorPointsLoop t b
  | .NeighborPointsLoop n g t b => .NeighborPointsLoop n g t b
  | .MathFunction f a => .MathFunction f a
  | .Stmt k cs => .Stmt k (visitList cs)

/-- `list(map(self.visit, nodes))`. -/
def visitList : List PyAst → List PyAst
  | [] => []
  | x :: xs => visit x :: visitList xs

end

theorem visitList_eq_map (l : List PyAst) : visitList l = l.map visit := by
  induction l with
  | nil => rfl
  | cons x xs ih => simp [visitList, ih]

/-! ### construction (StencilKernel.__new__ / __init__, stencil_kernel.py 346-393,
SpecializedStencil.__init__, stencil_kernel.py 180-201)

Source (abridged):
    def __new__(cls, backend="c", testing=False):
        if backend == 'python':
            cls.__call__ = cls.pure_python
            return super(StencilKernel, cls).__new__(cls, backend, testing)
        elif backend in ['c', 'omp', 'ocl']:
            new = super(StencilKernel, cls).__new__(cls, backend, testing)
            return SpecializedStencil(new, backend, testing)
    def __init__(self, backend="c", testing=False):
        try:
            dir(self).index("kernel")
        except ValueError:
            raise Exception("No kernel method defined.")
        ...

For backend 'python', `__new__` returns an instance of the class, so
`__init__` runs and raises `Exception("No kernel method defined.")` when the
subclass declares no `kernel` method.  For 'c'/'omp'/'ocl', `__new__` returns
a `SpecializedStencil` — not an instance of the class, so `__init__` never
runs — and `SpecializedStencil.__init__` evaluates
`get_ast(kernel.kernel)` (line 201), which raises `AttributeError` during
construction when the subclass declares no `kernel` method.  For the
unreachable alias 'opencl' (present in `backend_dict` but not in `__new__`'s
dispatch), `__new__` falls off the end and the construction expression
evaluates to `None` without any exception.  No path reads an input array or
invokes the external compiler. -/

/-- The backend names `StencilKernel` knows about. -/
inductive Backend where
  | c
  | omp
  | ocl
  | opencl
  | python
  deriving DecidableEq, Repr

/-- What constructing a `StencilKernel` subclass yields when no exception is
raised. -/
inductive Constructed where
  /-- a `SpecializedStencil` wrapping the kernel (backends c/omp/ocl). -/
  | specialized
  /-- a plain `StencilKernel` instance running `pure_python`. -/
  | pythonKernel
  /-- Python `None`, from `__new__` falling through (backend 'opencl'). -/
  | pyNone
  deriving DecidableEq, Repr

/-- Embedding of constructing a `StencilKernel` subclass instance:
`hasKernel` records whether the subclass declares a `kernel` method.  The
result is the constructed object or the exception message raised during
construction.  Construction takes no input arrays and triggers no
compilation on any path. -/
def StencilKernel.construct (backend : Backend) (hasKernel : Bool) :
    Except String Constructed :=
  match backend with
  | .python =>
    if hasKernel then .ok .pythonKernel
    else .error "No kernel method defined."
  | .c | .omp | .ocl =>
    if hasKernel then .ok .specialized
    else .error "AttributeError: instance has no attribute kernel"
  | .opencl => .ok .pyNone

/-! ## Theorems about the claims -/

theorem mem_interior_points {g : Nat} {shape p : List Nat} :
    p ∈ interior_points g shape ↔
      List.Forall₂ (fun x d => g ≤ x ∧ x + g < d) p shape := by
  rw [interior_points, mem_product]
  constructor
  · intro h
    have := List.forall₂_map_right_iff.mp h
    refine this.imp (fun {x d} hx => ?_)
    have := List.mem_range'_1.mp hx
    omega
  · intro h
    refine List.forall₂_map_right_iff.mpr (h.imp (fun {x d} hx => ?_))
    exact List.mem_range'_1.mpr (by omega)

/-- C2: `interior_points` yields exactly the tuples of the Cartesian product
of `range(g, dim - g)` over the dimensions of the shape, in
`itertools.product` order: membership is coordinatewise
`g ≤ x ∧ x + g < dim`; the order is the product order (leftmost coordinate
slowest, shown on a small instance); and for a `(10,10)` shape with `g = 1`
the yield has exactly the 64 indices `{(r,c) : 1 ≤ r ≤ 8, 1 ≤ c ≤ 8}` and no
boundary cell. -/
theorem interior_points_spec :
    (∀ g shape p, p ∈ interior_points g shape ↔
        List.Forall₂ (fun x d => g ≤ x ∧ x + g < d) p shape)
    ∧ interior_points 1 [4, 4] = [[1, 1], [1, 2], [2, 1], [2, 2]]
    ∧ (interior_points 1 [10, 10]).length = 64
    ∧ (∀ r c, [r, c] ∈ interior_points 1 [10, 10] ↔
        (1 ≤ r ∧ r ≤ 8 ∧ 1 ≤ c ∧ c ≤ 8)) := by
  refine ⟨fun g shape p => mem_interior_points, by decide, by decide, fun r c => ?_⟩
  rw [mem_interior_points]
  constructor
  · intro h
    rcases h with _ | ⟨hr, h⟩
    rcases h with _ | ⟨hc, _⟩
    omega
  · intro h
    exact List.Forall₂.cons (by omega) (List.Forall₂.cons (by omega) List.Forall₂.nil)

/-- C10: if any dimension extent is at most `2 * g`, `interior_points`
yields no indices at all (and, being a total function of the shape, raises
no error). -/
theorem interior_points_empty_of_small_dim (g : Nat) (shape : List Nat)
    (h : ∃ d ∈ shape, d ≤ 2 * g) :
    interior_points g shape = [] := by
  rcases h with ⟨d, hd, hle⟩
  apply product_of_empty_mem
  have : d - 2 * g = 0 := by omega
  refine List.mem_map.mpr ⟨d, hd, ?_⟩
  rw [this]
  rfl

/-- Witness for C10: the shape `[10, 2, 10]` with ghost depth 1 has a
dimension of extent `2 ≤ 2`, and the interior iteration is empty. -/
theorem interior_points_empty_of_small_dim_witness :
    interior_points 1 [10, 2, 10] = [] :=
  interior_points_empty_of_small_dim 1 [10, 2, 10] ⟨2, by decide, by decide⟩

/-- C1, counterexample: two invocations whose derived configurations differ
in dtype (`float64` vs `int32`) but agree on every shape.  The spec-side
equality `configEqualBySpec` distinguishes them, yet the controller reuses
the existing specialization (no recompilation), refuting "reused if and only
if the configurations are equal on dtype, ndim and shape". -/
theorem shadow_reuse_ignores_dtype :
    (shadow_step (shadow_step shadowInit [⟨"float64", [4]⟩]).2 [⟨"int32", [4]⟩]).1
        = false
    ∧ configEqualBySpec (args_to_subconfig [⟨"float64", [4]⟩])
        (args_to_subconfig [⟨"int32", [4]⟩]) = false := by
  decide

/-- C1, amended: the existing specialization is reused exactly when the
stored shape list equals, element-wise, the new arguments' shape list (and is
nonempty) — only shapes are compared, so an ndim difference (which changes
the shape tuple's length) triggers a rebuild but a dtype-only difference does
not; in every rebuild the state records the fresh shape list (old artifact
replaced); and the decision and resulting state depend on the arguments only
through their shapes. -/
theorem shadow_reuse_iff_shape_list :
    (∀ st args, (shadow_step st args).1 = false ↔
      (st.specialized_sizes = some (args.map (fun y => y.shape)) ∧ args ≠ []))
    ∧ (∀ st args, (shadow_step st args).2.specialized_sizes
        = some (args.map (fun y => y.shape)))
    ∧ (∀ st (args args' : List PyArray),
        args.map (fun y => y.shape) = args'.map (fun y => y.shape) →
        shadow_step st args = shadow_step st args') := by
  refine ⟨fun st args => ?_, fun st args => ?_, fun st args args' h => ?_⟩
  · unfold shadow_step
    rcases st with ⟨_ | (_ | ⟨sh, shs⟩)⟩
    · simp [sizesFalsy]
    · rcases args with _ | ⟨a, as⟩
      · simp [sizesFalsy]
      · simp [sizesFalsy]
    · rcases args with _ | ⟨a, as⟩
      · simp [sizesFalsy]
      · by_cases h1 : sh = a.shape <;>
          by_cases h2 : shs = List.map (fun y => y.shape) as <;>
          simp [sizesFalsy, h1, h2]
    -- condition `not self.specialized_sizes or specialized_sizes != new_sizes`
  · unfold shadow_step
    by_cases h : st.specialized_sizes = some (args.map (fun y => y.shape))
    · rcases st with ⟨_ | (_ | ⟨sh, shs⟩)⟩ <;> simp_all [sizesFalsy]
    · simp [h]
  · unfold shadow_step
    rw [h]

/-- Witness for `shadow_reuse_iff_shape_list` at concrete states: with the
stored shape list `[[4]]`, a call whose single argument has shape `[4]` is
reused regardless of its dtype, and two dtype-differing argument lists with
equal shapes produce identical cache decisions. -/
theorem shadow_reuse_iff_shape_list_witness :
    (shadow_step ⟨some [[4]]⟩ [⟨"float64", [4]⟩]).1 = false
    ∧ shadow_step ⟨some [[4]]⟩ [⟨"float64", [4]⟩]
        = shadow_step ⟨some [[4]]⟩ [⟨"int32", [4]⟩] :=
  ⟨(shadow_reuse_iff_shape_list.1 ⟨some [[4]]⟩ [⟨"float64", [4]⟩]).mpr
      ⟨rfl, by decide⟩,
   shadow_reuse_iff_shape_list.2.2 ⟨some [[4]]⟩ [⟨"float64", [4]⟩]
      [⟨"int32", [4]⟩] rfl⟩

/-- C3: the native execution wrapper invokes the compiled callable on the
given arguments extended with exactly two appended entries — the persistent
output buffer and the by-reference timing destination, in that order —
returns that persistent output buffer, and consequently any two calls on the
same wrapper (in particular two sequential ones) return the identical buffer
object. -/
theorem stencil_function_call_spec :
    (∀ (f : StencilFunction) args mem,
      (f.call args mem).1 = args.map CArg.buf ++ [CArg.buf f.output, CArg.timingRef])
    ∧ (∀ (f : StencilFunction) args mem, (f.call args mem).2.1 = f.output)
    ∧ (∀ (f : StencilFunction) args1 mem1 args2 mem2,
        (f.call args1 mem1).2.1 = (f.call args2 mem2).2.1) :=
  ⟨fun _ _ _ => rfl, fun _ _ _ => rfl, fun _ _ _ _ _ => rfl⟩

/-- C4, counterexample: one GPU invocation with a single input (rank 2,
ghost depth 1).  The device buffer created for the output slot — the very
buffer the result is downloaded from — is a per-call allocation: it is not
among the live buffers after the call, and the next invocation of the same
compiled specialization allocates entirely fresh device buffers.  So the
output device buffer is released like the input buffers and does not persist
across invocations, refuting the claim's second half. -/
theorem ocl_output_buffer_not_retained :
    (OclStencilFunction.call ⟨1, ⟨1, 2⟩⟩ true [⟨0, 2⟩] ⟨100, []⟩).1.downloadedFrom
        = 101
    ∧ 101 ∈ (OclStencilFunction.call ⟨1, ⟨1, 2⟩⟩ true [⟨0, 2⟩]
        ⟨100, []⟩).1.bufsCreated
    ∧ (OclStencilFunction.call ⟨1, ⟨1, 2⟩⟩ true [⟨0, 2⟩] ⟨100, []⟩).1.liveAfter = []
    ∧ (OclStencilFunction.call ⟨1, ⟨1, 2⟩⟩ true [⟨0, 2⟩]
        (OclStencilFunction.call ⟨1, ⟨1, 2⟩⟩ true [⟨0, 2⟩] ⟨100, []⟩).2).1.bufsCreated
        = [102, 103] := by
  decide

/-- C4, amended: on every GPU invocation, every per-call device buffer —
those bound for the inputs and the one for the output slot alike — is
released before the call returns: the live-buffer set after the call equals
the set before it, and no buffer created during the call remains live.  What
persists across invocations is the host output grid recorded at `finalize`
(the download target of every call), not any device buffer. -/
theorem ocl_buffers_released (fn : OclFn) (isGPU : Bool)
    (inputs : List HostArray) (st : DevState)
    (hfresh : ∀ b ∈ st.live, b < st.counter) :
    (OclStencilFunction.call fn isGPU inputs st).1.liveAfter = st.live
    ∧ (OclStencilFunction.call fn isGPU inputs st).2.live = st.live
    ∧ (∀ b ∈ (OclStencilFunction.call fn isGPU inputs st).1.bufsCreated,
        b ∉ (OclStencilFunction.call fn isGPU inputs st).1.liveAfter)
    ∧ (OclStencilFunction.call fn isGPU inputs st).1.downloadedFrom
        ∈ (OclStencilFunction.call fn isGPU inputs st).1.bufsCreated
    ∧ (OclStencilFunction.call fn isGPU inputs st).1.downloadTarget
        = fn.output_grid.id := by
  refine ⟨rfl, rfl, ?_, ?_, rfl⟩
  · intro b hb hlive
    simp only [OclStencilFunction.call, List.mem_map, List.mem_range] at hb
    rcases hb with ⟨i, _, rfl⟩
    have := hfresh _ hlive
    omega
  · simp only [OclStencilFunction.call, List.mem_map, List.mem_range]
    exact ⟨inputs.length, by omega, rfl⟩

/-- Witness for `ocl_buffers_released` at a concrete state: one live buffer
`0` below the counter `5`, one input of rank 2. -/
theorem ocl_buffers_released_witness :
    (∀ b ∈ ([0] : List Nat), b < 5)
    ∧ ((OclStencilFunction.call ⟨1, ⟨9, 2⟩⟩ true [⟨8, 2⟩] ⟨5, [0]⟩).1.liveAfter = [0]
      ∧ (OclStencilFunction.call ⟨1, ⟨9, 2⟩⟩ true [⟨8, 2⟩] ⟨5, [0]⟩).2.live = [0]
      ∧ (∀ b ∈ (OclStencilFunction.call ⟨1, ⟨9, 2⟩⟩ true [⟨8, 2⟩]
            ⟨5, [0]⟩).1.bufsCreated,
          b ∉ (OclStencilFunction.call ⟨1, ⟨9, 2⟩⟩ true [⟨8, 2⟩] ⟨5, [0]⟩).1.liveAfter)
      ∧ (OclStencilFunction.call ⟨1, ⟨9, 2⟩⟩ true [⟨8, 2⟩] ⟨5, [0]⟩).1.downloadedFrom
          ∈ (OclStencilFunction.call ⟨1, ⟨9, 2⟩⟩ true [⟨8, 2⟩] ⟨5, [0]⟩).1.bufsCreated
      ∧ (OclStencilFunction.call ⟨1, ⟨9, 2⟩⟩ true [⟨8, 2⟩] ⟨5, [0]⟩).1.downloadTarget
          = (9 : Nat)) :=
  ⟨by decide, ocl_buffers_released ⟨1, ⟨9, 2⟩⟩ true [⟨8, 2⟩] ⟨5, [0]⟩ (by decide)⟩

theorem foldl_mul_replicate (n a x : Nat) :
    List.foldl (· * ·) a (List.replicate n x) = a * x ^ n := by
  induction n generalizing a with
  | zero => simp
  | succ n ih =>
    rw [List.replicate_succ, List.foldl_cons, ih, pow_succ]
    ring

/-- C5: on every GPU invocation whose first input has rank `n`, the
local-memory size bound as the kernel's final argument (index
`len(args) - 1`, i.e. one past the per-buffer positional slots) equals
`sizeof(c_float) * (local + 2*ghost_depth)^n` with `local = 8` on a GPU
device and `local = 1` otherwise; in particular, for rank 2, a GPU device and
ghost depth 1 it is `4 * (8 + 2)^2 = 400` bytes. -/
theorem ocl_localmem_size_spec :
    (∀ (fn : OclFn) (isGPU : Bool) (a : HostArray) (rest : List HostArray)
        (st : DevState),
      (OclStencilFunction.call fn isGPU (a :: rest) st).1.localmemSize
          = sizeof_c_float * ((if isGPU then 8 else 1) + 2 * fn.ghost_depth) ^ a.ndim
      ∧ (OclStencilFunction.call fn isGPU (a :: rest) st).1.localmemArgIndex
          = (a :: rest).length + 1)
    ∧ (∀ (out : HostArray) (i : Nat) (rest : List HostArray) (st : DevState),
      (OclStencilFunction.call ⟨1, out⟩ true (⟨i, 2⟩ :: rest) st).1.localmemSize
          = 400) := by
  constructor
  · intro fn isGPU a rest st
    constructor
    · show List.foldl (· * ·) sizeof_c_float
          (List.replicate ((⟨a.id, a.ndim⟩ :: rest).headD fn.output_grid).ndim
            ((if isGPU then 8 else 1) + fn.ghost_depth * 2))
          = sizeof_c_float * ((if isGPU then 8 else 1) + 2 * fn.ghost_depth) ^ a.ndim
      rw [foldl_mul_replicate]
      norm_num [Nat.mul_comm]
    · rfl
  · intro out i rest st
    show List.foldl (· * ·) sizeof_c_float
        (List.replicate ((⟨i, 2⟩ :: rest).headD out).ndim ((8 : Nat) + 1 * 2)) = 400
    rw [foldl_mul_replicate]
    rfl

/-- C6, counterexample: a first build with first input of shape `(8,8)`, then
a second build on the same `SpecializedStencil` instance triggered by a call
whose first input has shape `(16,16)`.  The second build's output is the
cached array of the first build — same object identity, shape `(8,8)` rather
than the triggering call's `(16,16)` — not a freshly allocated zero-filled
array shaped like the triggering call's first input. -/
theorem generate_output_reuses_stale :
    (generate_output (generate_output ⟨0, none⟩ [⟨[8, 8], "float64"⟩]).2
        [⟨[16, 16], "float64"⟩]).1.arr.shape = [8, 8]
    ∧ (generate_output (generate_output ⟨0, none⟩ [⟨[8, 8], "float64"⟩]).2
        [⟨[16, 16], "float64"⟩]).1.arr.shape ≠ [16, 16]
    ∧ (generate_output (generate_output ⟨0, none⟩ [⟨[8, 8], "float64"⟩]).2
        [⟨[16, 16], "float64"⟩]).1.id
      = (generate_output ⟨0, none⟩ [⟨[8, 8], "float64"⟩]).1.id := by
  decide

/-- C6, amended: only the first build on a given `SpecializedStencil`
instance allocates a fresh (new identity) zero-filled output array with the
shape and dtype of the triggering call's first input; every later build on
the same instance returns the cached output unchanged — `generate_output`
short-circuits on `self.output is not None` — even when the new call's first
input has a different shape or dtype. -/
theorem generate_output_spec :
    (∀ (st : SpecStencilState) (a : NDArr) (rest : List NDArr),
      st.output = none →
      generate_output st (a :: rest)
        = (⟨st.alloc_counter, a, true⟩,
           ⟨st.alloc_counter + 1, some ⟨st.alloc_counter, a, true⟩⟩))
    ∧ (∀ (st : SpecStencilState) (o : OutBuf) (args : List NDArr),
      st.output = some o → generate_output st args = (o, st)) := by
  constructor
  · rintro ⟨c, _⟩ a rest rfl
    rfl
  · rintro ⟨c, _⟩ o args rfl
    rfl

/-- Witness for `generate_output_spec`: from the initial state (counter 0, no
cached output), a build for first input shape `(8,8)` allocates the
zero-filled buffer with identity 0 and caches it; from that resulting state,
a further build just returns the cache. -/
theorem generate_output_spec_witness :
    generate_output ⟨0, none⟩ [⟨[8, 8], "float64"⟩]
      = (⟨0, ⟨[8, 8], "float64"⟩, true⟩, ⟨1, some ⟨0, ⟨[8, 8], "float64"⟩, true⟩⟩)
    ∧ generate_output ⟨1, some ⟨0, ⟨[8, 8], "float64"⟩, true⟩⟩ [⟨[16, 16], "int32"⟩]
      = (⟨0, ⟨[8, 8], "float64"⟩, true⟩, ⟨1, some ⟨0, ⟨[8, 8], "float64"⟩, true⟩⟩) :=
  ⟨generate_output_spec.1 ⟨0, none⟩ ⟨[8, 8], "float64"⟩ [] rfl,
   generate_output_spec.2 ⟨1, some ⟨0, ⟨[8, 8], "float64"⟩, true⟩⟩
     ⟨0, ⟨[8, 8], "float64"⟩, true⟩ [⟨[16, 16], "int32"⟩] rfl⟩

/-- C7: a for-loop whose iterable is a call `<grid>.neighbors(<point>,
<level>)` translates to a `NeighborPointsLoop` whose neighbor level is the
call's second argument, whose source array name is the name of the object
`.neighbors` is called on, whose loop variable is the for-loop's target, and
whose body is the recursively translated loop body. -/
theorem visit_neighbors_loop (grid v : String) (lvl : Int) (point : PyAst)
    (body : List PyAst) :
    visit (.For (.Name v)
        (.Call (.Attribute (.Name grid) "neighbors") [point, .Num lvl]) body)
      = .NeighborPointsLoop lvl grid v (body.map visit) := by
  simp [visit, PyAst.nameId, PyAst.numN, visitList_eq_map]

/-- Whether a for-loop iterable matches one of the two recognized idioms:
a call whose function is an attribute access named `interior_points` or
`neighbors`. -/
def recognizedIter : PyAst → Bool
  | .Call (.Attribute _ attr) _ => attr = "interior_points" || attr = "neighbors"
  | _ => false

/-- C8, counterexample: the for-loop `For(Name "i", FunctionCall "int"
[Num 3], [])` is not one of the two recognized loop idioms (its iterable is
not an attribute call), and the call `int(3)` in its iterable position is a
recognized math call (translated to `MathFunction` when visited directly) —
yet the translator returns the loop with that child untouched, not with its
children recursively translated. -/
theorem visit_for_skips_iter_child :
    visit (.For (.Name "i") (.FunctionCall "int" [.Num 3]) [])
      = .For (.Name "i") (.FunctionCall "int" [.Num 3]) []
    ∧ visit (.FunctionCall "int" [.Num 3]) = .MathFunction "int" [.Num 3]
    ∧ visit (.For (.Name "i") (.FunctionCall "int" [.Num 3]) [])
      ≠ .For (visit (.Name "i")) (visit (.FunctionCall "int" [.Num 3]))
          (List.map visit []) := by
  refine ⟨by simp [visit, visitList], by simp [visit, visitList], ?_⟩
  simp [visit, visitList]

/-- C8, amended: every input node that is not one of the two recognized loop
idioms and not a call to `distance` or `int` is returned unchanged with no
error raised, its children recursively translated — except that for a
for-loop only the body is translated: the loop's target and iterable children
are left untouched (the `For` visitor never recurses into them). -/
theorem visit_passthrough :
    (∀ s, visit (.Name s) = .Name s)
    ∧ (∀ n, visit (.Num n) = .Num n)
    ∧ (∀ v a, visit (.Attribute v a) = .Attribute (visit v) a)
    ∧ (∀ f args, visit (.Call f args) = .Call (visit f) (args.map visit))
    ∧ (∀ k cs, visit (.Stmt k cs) = .Stmt k (cs.map visit))
    ∧ (∀ f args, ¬(f = "distance" ∨ f = "int") →
        visit (.FunctionCall f args) = .FunctionCall f (args.map visit))
    ∧ (∀ target iter body, recognizedIter iter = false →
        visit (.For target iter body) = .For target iter (body.map visit)) := by
  refine ⟨fun s => rfl, fun n => rfl, fun v a => by simp [visit],
    fun f args => by simp [visit, visitList_eq_map],
    fun k cs => by simp [visit, visitList_eq_map],
    fun f args h => by simp [visit, visitList_eq_map, h],
    fun target iter body h => ?_⟩
  cases iter with
  | Call func cargs =>
    cases func with
    | Attribute value attr =>
      simp only [recognizedIter, Bool.or_eq_false_iff, decide_eq_false_iff_not] at h
      simp [visit, visitList_eq_map, h.1, h.2]
    | _ => simp [visit, visitList_eq_map]
  | _ => simp [visit, visitList_eq_map]

/-- Witness for `visit_passthrough`: an unrecognized call and a for-loop over
a plain name pass through unchanged (with children translated where the
translator recurses at all). -/
theorem visit_passthrough_witness :
    visit (.FunctionCall "foo" [.Num 1]) = .FunctionCall "foo" [.Num 1]
    ∧ visit (.For (.Name "x") (.Name "xs") [.Num 2])
        = .For (.Name "x") (.Name "xs") [.Num 2] := by
  constructor
  · have := visit_passthrough.2.2.2.2.2.1 "foo" [.Num 1] (by simp)
    simpa [visit] using this
  · have := visit_passthrough.2.2.2.2.2.2 (.Name "x") (.Name "xs") [.Num 2]
        (by simp [recognizedIter])
    simpa [visit] using this

/-- C9: for every documented backend (c, omp, ocl and the python
fall-back — the only names `__new__` dispatches on), constructing a
`StencilKernel` subclass instance whose class defines no kernel method raises
an exception during construction (the definition error for the python
backend, the attribute error from `get_ast(kernel.kernel)` for the compiled
backends), while with a kernel method defined construction raises no such
error; construction reads no input array and triggers no compilation. -/
theorem construct_raises_iff_no_kernel (b : Backend) (h : b ≠ Backend.opencl) :
    (∃ msg, StencilKernel.construct b false = .error msg)
    ∧ (∀ msg, StencilKernel.construct b true ≠ .error msg) := by
  cases b with
  | opencl => exact absurd rfl h
  | python => exact ⟨⟨"No kernel method defined.", rfl⟩, fun msg hmsg => by
      simp [StencilKernel.construct] at hmsg⟩
  | c => exact ⟨⟨_, rfl⟩, fun msg hmsg => by simp [StencilKernel.construct] at hmsg⟩
  | omp => exact ⟨⟨_, rfl⟩, fun msg hmsg => by simp [StencilKernel.construct] at hmsg⟩
  | ocl => exact ⟨⟨_, rfl⟩, fun msg hmsg => by simp [StencilKernel.construct] at hmsg⟩

/-- Witness for `construct_raises_iff_no_kernel` at the default backend
`c`. -/
theorem construct_raises_iff_no_kernel_witness :
    (∃ msg, StencilKernel.construct .c false = .error msg)
    ∧ (∀ msg, StencilKernel.construct .c true ≠ .error msg) :=
  construct_raises_iff_no_kernel .c (by decide)

end StencilCode
